import Mathlib

/-!
A shallow embedding of `src/bot.py` (a Telegram support bot) and proofs about it.

Python strings are modelled as lists of characters (`Str`); the Python string
operations the bot uses (`.lower()`, `.strip()`, `.startswith(p)`, `len`,
substring containment `in`, `.split(",")`) are defined below on that type,
character by character, so that every definition evaluates inside the kernel.

The bot's handlers are `async` functions whose only effects are replies sent
through the messaging platform and mutations of per-user conversation state;
they are embedded as pure functions from their inputs (message text, callback
data, stored `user_data`) to a result recording the next conversation state,
the replies sent, and whether an uncaught exception escaped the handler.
-/

namespace PancakeBot

/-- A Python `str`, as the list of its characters. -/
abbrev Str := List Char

/-- Python `s.lower()` (ASCII case folding, which is all the bot's data needs). -/
def lower (s : Str) : Str := s.map Char.toLower

/-- Python `s.strip()`: drop leading and trailing whitespace. -/
def strip (s : Str) : Str :=
  ((s.dropWhile Char.isWhitespace).reverse.dropWhile Char.isWhitespace).reverse

/-- Python `s.startswith(p)`: `beginsWith p s` is true when `p` is an initial
segment of `s`. -/
def beginsWith : Str → Str → Bool
  | [], _ => true
  | _ :: _, [] => false
  | p :: ps, c :: cs => (p == c) && beginsWith ps cs

/-- Python `pat in s`: substring containment. -/
def containsSub (pat : Str) : Str → Bool
  | [] => pat.isEmpty
  | c :: rest => beginsWith pat (c :: rest) || containsSub pat rest

/-- Helper for `splitOnComma`; `acc` holds the current segment reversed. -/
def splitCommaAux (acc : Str) : Str → List Str
  | [] => [acc.reverse]
  | c :: cs => if c = ',' then acc.reverse :: splitCommaAux [] cs
               else splitCommaAux (c :: acc) cs

/-- Python `s.split(",")`. -/
def splitOnComma (s : Str) : List Str := splitCommaAux [] s

/-! ### Configuration (bot.py lines 28-31, with the defaults in the source) -/

/-- Default of the `HELP_LINK` environment variable (line 29). -/
def HELP_LINK : Str := "https://alari12.github.io/MindCarePLC/".data

/-- Default of the `TRIGGERS` environment variable (line 30). -/
def TRIGGERS : Str := "wallet,usdt,crypto,sol,help,swap,staking,transfer".data

/-- Line 31: `[t.strip().lower() for t in TRIGGERS.split(",") if t.strip()]`. -/
def TRIGGER_WORDS : List Str :=
  ((splitOnComma TRIGGERS).filter (fun t => !(strip t).isEmpty)).map
    (fun t => lower (strip t))

/-! ### Conversation states (line 38) and replies

`LANGUAGE, ISSUE, ASK_ADDRESS = range(3)`; `ConversationHandler.END` is
modelled as `none` in an `Option ConvState` (a session whose conversation has
ended is indistinguishable from one never started: with `allow_reentry=True`
the next text message enters at `support_start_dm` either way). -/

inductive ConvState where
  | LANGUAGE
  | ISSUE
  | ASK_ADDRESS
  deriving DecidableEq, Repr

/-- An inline keyboard: rows of (label, callback_data) buttons. -/
abbrev Keyboard := List (List (Str × Str))

/-- `issues_keyboard()` (lines 40-47). -/
def issues_keyboard : Keyboard :=
  [[("Swapping".data, "swapping".data), ("Staking".data, "staking".data)],
   [("Site malfunction".data, "site".data), ("Other".data, "other".data)]]

/-- One `reply_text` call: the text and the `reply_markup` keyboard, if any. -/
structure Reply where
  text : Str
  reply_markup : Option Keyboard
  deriving DecidableEq, Repr

/-! ### The texts the handlers send (verbatim from bot.py) -/

def greetMsg (first_name : Str) : Str :=
  "Hello ".data ++ first_name ++
    "! 👋\nDo you speak English? Reply 'yes' or tell me your preferred language.".data

def englishOkMsg : Str :=
  "Great — we'll continue in English. What problem are you experiencing?".data

def langHintMsg (text : Str) : Str :=
  "Okay — you said '".data ++ text ++
    "'. I will attempt to provide replies in that language (translations may be imperfect).\nWhat problem are you experiencing?".data

def chooseIssueMsg : Str := "Choose an issue:".data

def addressPromptMsg : Str :=
  "If you'd like me to check public on-chain info, please paste your PUBLIC wallet address now.\n\n⚠️ DO NOT share private keys or seed phrases. Only paste a public address (starts with 0x).".data

def troubleshootMsg (data : Str) : Str :=
  "Thanks — noted the issue: ".data ++ data ++
    ".\n\n- Try clearing cache and refreshing the page\n- Ensure you selected the correct network\n- Try a different wallet or browser\n\nDetailed resource: ".data ++
    HELP_LINK ++
    "\n\nIf you'd like me to check a public wallet address, you can paste it here.".data

def invalidAddressMsg : Str :=
  "That doesn't look like a valid public address. Please paste your wallet address (starts with 0x).".data

def explorerMsg (url : Str) : Str :=
  "Thanks. I can only check public data. Open the link below to view transactions and balance:\n\n".data ++
    url ++
    "\n\nThis page shows public on-chain information only (balances, tx history).".data

def swapAdviceMsg : Str :=
  "- Check that you have enough BNB for gas on BSC.\n- Verify token allowance and slippage settings for the swap.\n- Try a different DEX/router or increase slippage if needed.\n".data

def stakeAdviceMsg : Str :=
  "- Check the staking contract address and token approval status.\n- Verify contract state (locked/unlocked) and staking rules.\n".data

def genericAdviceMsg : Str :=
  "- Follow steps in the resource for troubleshooting.\n".data

def nextStepsMsg (advice : Str) : Str :=
  "Suggested next steps:\n".data ++ advice ++ "\nFull resource: ".data ++ HELP_LINK ++
    "\n\nI will NOT ask for private keys or seed phrases. If you'd like additional help, describe the exact error or behavior.".data

def closingMsg : Str :=
  "Support session closed. Type /help to view the resource link again.".data

/-- The DM of `handle_group_message` (lines 174-178). -/
def dmText (first_name : Str) : Str :=
  "Hello ".data ++ first_name ++
    ", 👋\n\nI can help troubleshoot crypto issues safely. Reply here to continue. (I only use public on-chain data.)".data

/-! ### The conversation handlers (lines 64-155)

Each handler returns either `ok next replies` (returned state — `none` is
`ConversationHandler.END` — and the replies it sent) or `raised replies` (an
uncaught exception escaped after sending `replies`; the conversation state is
then left unchanged by the surrounding framework). -/

inductive HandlerOut where
  | ok (next : Option ConvState) (replies : List Reply)
  | raised (replies : List Reply)
  deriving DecidableEq, Repr

/-- `support_start_dm` (lines 64-70). `first_name` stands for the Python
`user.first_name or ''` (the empty list when the account has no first name). -/
def support_start_dm (first_name : Str) : HandlerOut :=
  HandlerOut.ok (some ConvState.LANGUAGE) [⟨greetMsg first_name, none⟩]

/-- The tuple of line 75, `("yes", "y", "en", "english")`. -/
def affirmations : List Str := ["yes".data, "y".data, "en".data, "english".data]

/-- `language_received` (lines 73-83): `text = (update.message.text or
"").strip().lower()`, branch on membership in `affirmations`, then always send
the issue menu and move to `ISSUE`. -/
def language_received (text0 : Str) : HandlerOut :=
  let text := lower (strip text0)
  let branchReply : Reply :=
    if text ∈ affirmations then ⟨englishOkMsg, none⟩
    else ⟨langHintMsg text, none⟩
  HandlerOut.ok (some ConvState.ISSUE)
    [branchReply, ⟨chooseIssueMsg, some issues_keyboard⟩]

/-- `issue_selected` (lines 86-111). `cbq` is `update.callback_query.data` when
the update is a button callback, `message` is `update.message.text` when the
update carries a message. The first component of the result is the value
written to `context.user_data["issue"]` (written before any reply is sent).
Every reply goes through `update.message.reply_text`; on a callback update the
Telegram `Update` object has `message = None`, so that call raises
`AttributeError` — modelled by `HandlerOut.raised`. -/
def issue_selected (cbq : Option Str) (message : Option Str) :
    Option Str × HandlerOut :=
  let data : Str :=
    match cbq with
    | some d => d
    | none => lower (strip (message.getD []))
  let recorded := some data
  if data = "swapping".data ∨ data = "staking".data then
    match message with
    | none => (recorded, HandlerOut.raised [])
    | some _ =>
        (recorded,
         HandlerOut.ok (some ConvState.ASK_ADDRESS) [⟨addressPromptMsg, none⟩])
  else
    match message with
    | none => (recorded, HandlerOut.raised [])
    | some _ =>
        (recorded, HandlerOut.ok none [⟨troubleshootMsg data, none⟩])

/-- Line 117's condition: `text.startswith("0x") and len(text) >= 40`. -/
def validAddress (text : Str) : Bool :=
  beginsWith "0x".data text && decide (40 ≤ text.length)

/-- `address_received` (lines 114-150): strip the text; if it fails
`validAddress`, reprompt and stay in `ASK_ADDRESS`; otherwise send the BscScan
link and the advice for the stored issue (`context.user_data.get("issue",
"issue")`), and end the conversation. -/
def address_received (ud : Option Str) (text0 : Str) : HandlerOut :=
  let text := strip text0
  if !(validAddress text) then
    HandlerOut.ok (some ConvState.ASK_ADDRESS) [⟨invalidAddressMsg, none⟩]
  else
    let address := text
    let bscscan_url := "https://bscscan.com/address/".data ++ address
    let issue := ud.getD "issue".data
    let advice :=
      if issue = "swapping".data then swapAdviceMsg
      else if issue = "staking".data then stakeAdviceMsg
      else genericAdviceMsg
    HandlerOut.ok none
      [⟨explorerMsg bscscan_url, none⟩, ⟨nextStepsMsg advice, none⟩]

/-- `cancel` (lines 153-155). -/
def cancel : HandlerOut := HandlerOut.ok none [⟨closingMsg, none⟩]

/-! ### The group trigger scanner, `handle_group_message` (lines 158-184) -/

/-- `update.message.from_user`: the sender. -/
structure GroupUser where
  id : Nat
  is_bot : Bool
  first_name : Str
  deriving DecidableEq, Repr

/-- The inbound group message: its text (if any) and its sender (if any). -/
structure GroupMsg where
  text : Option Str
  from_user : Option GroupUser
  deriving DecidableEq, Repr

/-- Line 164's condition `update.message.from_user and
update.message.from_user.is_bot`. -/
def isBotSender : GroupMsg → Bool
  | ⟨_, some u⟩ => u.is_bot
  | ⟨_, none⟩ => false

/-- The effects of one `handle_group_message` call: the DM send attempts made
(chat id, text), those that were delivered, whether a delivery failure was
logged (the `except` branch, line 182-183), and whether an uncaught exception
escaped the handler. -/
structure GroupResult where
  sends : List (Nat × Str)
  delivered : List (Nat × Str)
  loggedFailure : Bool
  raised : Bool
  deriving DecidableEq, Repr

/-- The result of the paths that do nothing (lines 160-161, 163-164, no
trigger matched). -/
def quietResult : GroupResult := ⟨[], [], false, false⟩

/-- The `for w in TRIGGER_WORDS: if w in text: ... break` loop (lines
168-184), as the first keyword of `ws` contained in `text`. -/
def scanTriggers (ws : List Str) (text : Str) : Option Str :=
  match ws with
  | [] => none
  | w :: rest => if containsSub w text then some w else scanTriggers rest text

/-- `handle_group_message` (lines 158-184). `dmOk u` tells whether the
platform accepts the DM to user id `u` (`context.bot.send_message`); a
rejection is caught by the `try/except` and logged. When a trigger matched but
the message has no sender, `user.id` on `None` raises before the `try`. -/
def handle_group_message (ws : List Str) (dmOk : Nat → Bool) (msg : GroupMsg) :
    GroupResult :=
  match msg.text with
  | none => quietResult
  | some t0 =>
    if isBotSender msg then quietResult
    else
      let text := lower t0
      match scanTriggers ws text with
      | none => quietResult
      | some _ =>
        match msg.from_user with
        | none => ⟨[], [], false, true⟩
        | some u =>
          let dm := dmText u.first_name
          if dmOk u.id then ⟨[(u.id, dm)], [(u.id, dm)], false, false⟩
          else ⟨[(u.id, dm)], [], true, false⟩

/-! ### The conversation handler's dispatch (`build_conv_handler`, lines
186-200)

The `states` table: `LANGUAGE` and `ASK_ADDRESS` each handle non-command text,
`ISSUE` handles both button callbacks and non-command text; `fallbacks` handle
the `/cancel` command whenever a conversation exists. An inbound event is a
non-command text message, a button callback, a `/name` command, or a non-text
message. -/

inductive Inbound where
  | textMsg (text : Str)
  | callback (data : Str)
  | commandMsg (name : Str)
  | nonText
  deriving DecidableEq, Repr

/-- The outcome of handing one event to the conversation handler: the
conversation state afterwards, the stored `user_data["issue"]` afterwards, the
replies sent, and whether the running handler raised. -/
structure StepResult where
  state : Option ConvState
  issue : Option Str
  replies : List Reply
  errored : Bool
  deriving DecidableEq, Repr

/-- Lift a handler's `HandlerOut` to a `StepResult`: on `ok` the returned
state is adopted; on `raised` the framework keeps the previous state `st`. -/
def applyOut (st : Option ConvState) (issue : Option Str) : HandlerOut → StepResult
  | HandlerOut.ok next rs => ⟨next, issue, rs, false⟩
  | HandlerOut.raised rs => ⟨st, issue, rs, true⟩

/-- One step of the conversation handler: which registered handler runs for
`(state, event)` per `build_conv_handler`, and its effect. `fname` is the
sender's first name (used only by the entry point's greeting). Events no
registered handler matches leave everything unchanged. -/
def convHandle (fname : Str) (st : Option ConvState) (ud : Option Str) :
    Inbound → StepResult
  | Inbound.textMsg t =>
    match st with
    | none => applyOut st ud (support_start_dm fname)
    | some ConvState.LANGUAGE => applyOut st ud (language_received t)
    | some ConvState.ISSUE =>
        let r := issue_selected none (some t)
        applyOut st r.1 r.2
    | some ConvState.ASK_ADDRESS => applyOut st ud (address_received ud t)
  | Inbound.callback d =>
    match st with
    | some ConvState.ISSUE =>
        let r := issue_selected (some d) none
        applyOut st r.1 r.2
    | _ => ⟨st, ud, [], false⟩
  | Inbound.commandMsg n =>
    if st.isSome ∧ n = "cancel".data then applyOut st ud cancel
    else ⟨st, ud, [], false⟩
  | Inbound.nonText => ⟨st, ud, [], false⟩

/-- Run the conversation handler over a list of events, tracking only the
conversation state and the stored issue. -/
def convRunStates (fname : Str) (st : Option ConvState) (ud : Option Str) :
    List Inbound → Option ConvState × Option Str
  | [] => (st, ud)
  | e :: es =>
    let r := convHandle fname st ud e
    convRunStates fname r.state r.issue es

/-! ### Top-level routing (`main`, lines 202-219)

`Application` tries the handlers of a group in registration order and gives
the update to the first whose `check_update` accepts it: `/start`, `/help`,
the conversation handler, then the group-message scanner (all in the default
group). The conversation handler accepts every non-command text message (its
entry point's filter is `TEXT & ~COMMAND` with no chat restriction), accepts a
button callback only when that chat's conversation is at `ISSUE`, and accepts
`/cancel` only while a conversation exists (fallbacks run only then). -/

inductive HandlerId where
  | startCmd
  | helpCmd
  | conv
  | groupScan
  deriving DecidableEq, Repr

/-- `ConversationHandler.check_update` for a conversation at `st`. -/
def convAccepts (st : Option ConvState) : Inbound → Bool
  | Inbound.textMsg _ => true
  | Inbound.callback _ => st = some ConvState.ISSUE
  | Inbound.commandMsg n => st.isSome && n = "cancel".data
  | Inbound.nonText => false

/-- Whether each registered handler's `check_update` accepts the event. -/
def accepts (st : Option ConvState) : HandlerId → Inbound → Bool
  | HandlerId.startCmd, Inbound.commandMsg n => n = "start".data
  | HandlerId.helpCmd, Inbound.commandMsg n => n = "help".data
  | HandlerId.conv, e => convAccepts st e
  | HandlerId.groupScan, Inbound.textMsg _ => true
  | _, _ => false

/-- The registration order of `main` (lines 209-216). -/
def handlerOrder : List HandlerId :=
  [HandlerId.startCmd, HandlerId.helpCmd, HandlerId.conv, HandlerId.groupScan]

/-- The handler the application gives the event to: the first accepting one. -/
def route (st : Option ConvState) (e : Inbound) : Option HandlerId :=
  handlerOrder.find? (fun h => accepts st h e)

/-! ### The Dispatcher and manual (relay) mode

Modelled from the spec: the RelayBridge / Dispatcher ("routes each inbound
event to RelayBridge if manual mode is active, else to ConversationEngine or
TriggerScanner"; `deactivate` "clears `manualMode`") belong to repository
variants whose code is not under `src/`; `src/bot.py` has no manual mode. The
session carries the conversation state, the stored issue and the
`manualMode` flag; `activate` and `deactivate` are the explicit start and end
of manual mode, every other event is an inbound user event. While
`manualMode` is set the Dispatcher hands the event to the RelayBridge and the
ConversationEngine (`convHandle`) is not consulted. -/

structure DispSession where
  stage : Option ConvState
  issue : Option Str
  manualMode : Bool
  deriving DecidableEq, Repr

inductive DispatchTarget where
  | relayBridge
  | convEngine
  deriving DecidableEq, Repr

inductive UserEvent where
  | msg (e : Inbound)
  | activate
  | deactivate
  deriving DecidableEq, Repr

/-- Modelled from the spec: one Dispatcher step (see the section comment). -/
def dispatchStep (fname : Str) (s : DispSession) :
    UserEvent → DispSession × Option DispatchTarget
  | UserEvent.activate => ({ s with manualMode := true }, none)
  | UserEvent.deactivate => ({ s with manualMode := false }, none)
  | UserEvent.msg e =>
    if s.manualMode then (s, some DispatchTarget.relayBridge)
    else
      let r := convHandle fname s.stage s.issue e
      ({ s with stage := r.state, issue := r.issue }, some DispatchTarget.convEngine)

/-- Modelled from the spec: run the Dispatcher over a list of events,
collecting the components each event was routed to. -/
def dispatchRun (fname : Str) (s : DispSession) :
    List UserEvent → DispSession × List DispatchTarget
  | [] => (s, [])
  | e :: es =>
    let p := dispatchStep fname s e
    let q := dispatchRun fname p.1 es
    (q.1, p.2.toList ++ q.2)

/-! ### Helper lemmas -/

/-- `beginsWith p s` is the prefix relation. -/
theorem beginsWith_iff (p : Str) : ∀ s : Str, beginsWith p s = true ↔ p <+: s := by
  induction p with
  | nil => intro s; simp [beginsWith]
  | cons a as ih =>
    intro s
    cases s with
    | nil => simp [beginsWith]
    | cons b bs => simp [beginsWith, ih, List.cons_prefix_cons]

/-- The trigger loop finds nothing exactly when no keyword occurs in the text. -/
theorem scanTriggers_eq_none (ws : List Str) (t : Str) :
    scanTriggers ws t = none ↔ ∀ w ∈ ws, containsSub w t = false := by
  induction ws with
  | nil => simp [scanTriggers]
  | cons w rest ih =>
    by_cases hw : containsSub w t = true
    · simp [scanTriggers, hw]
    · simp only [Bool.not_eq_true] at hw
      simp [scanTriggers, hw, ih]

/-- A found trigger occurs in the text and is the first of the list to do so. -/
theorem scanTriggers_eq_some (ws : List Str) (t w : Str)
    (h : scanTriggers ws t = some w) :
    containsSub w t = true ∧
      ∃ pre post, ws = pre ++ w :: post ∧ ∀ v ∈ pre, containsSub v t = false := by
  induction ws with
  | nil => simp [scanTriggers] at h
  | cons a rest ih =>
    by_cases ha : containsSub a t = true
    · rw [scanTriggers, if_pos ha] at h
      obtain rfl : a = w := Option.some.inj h
      exact ⟨ha, [], rest, rfl, by simp⟩
    · rw [scanTriggers, if_neg ha] at h
      obtain ⟨hw, pre, post, rfl, hpre⟩ := ih h
      refine ⟨hw, a :: pre, post, rfl, ?_⟩
      intro v hv
      rcases List.mem_cons.mp hv with rfl | hv
      · exact Bool.not_eq_true _ ▸ (by simpa using ha)
      · exact hpre v hv

/-! ### The claims -/

/-- C2: address validation is exactly the syntactic predicate — a text passes
`validAddress` if and only if it starts with the two characters `0x` and has
total length at least 40 (no checksum or any other check enters into it); in
particular `"0x"` followed by any 40 characters passes, and a text not
starting with `0x`, or shorter than 40 characters, fails. -/
theorem c2_address_validation (text : Str) :
    (validAddress text = true ↔ "0x".data <+: text ∧ 40 ≤ text.length) ∧
    (∀ rest : Str, rest.length = 40 → validAddress ("0x".data ++ rest) = true) ∧
    (¬ "0x".data <+: text → validAddress text = false) ∧
    (text.length < 40 → validAddress text = false) := by
  have charac : ∀ s : Str, validAddress s = true ↔ "0x".data <+: s ∧ 40 ≤ s.length := by
    intro s
    simp [validAddress, Bool.and_eq_true, beginsWith_iff]
  refine ⟨charac text, ?_, ?_, ?_⟩
  · intro rest hr
    rw [charac]
    exact ⟨List.prefix_append _ _, by simp [hr]⟩
  · intro hnp
    rcases hv : validAddress text with _ | _
    · rfl
    · exact absurd ((charac text).mp hv).1 hnp
  · intro hlen
    rcases hv : validAddress text with _ | _
    · rfl
    · exact absurd ((charac text).mp hv).2 (by omega)

/-- C3: every non-command text message, whatever the conversation state and
whatever the chat, is routed to the conversation handler — the third entry of
the handler group — because its entry point (`TEXT & ~COMMAND`, no chat
restriction) accepts every such update and it is registered before the
group-message scanner; since the application gives an update to exactly the
first accepting handler, `handle_group_message` (routed as
`HandlerId.groupScan`) never receives a text message, so the trigger-driven
DM is unreachable via text messages. -/
theorem c3_text_never_reaches_group_scan (st : Option ConvState) (t : Str) :
    route st (Inbound.textMsg t) = some HandlerId.conv ∧
    route st (Inbound.textMsg t) ≠ some HandlerId.groupScan := by
  refine ⟨rfl, ?_⟩
  intro h
  rw [(rfl : route st (Inbound.textMsg t) = some HandlerId.conv)] at h
  cases h

/-- C4: a button-callback menu selection at the `ISSUE` stage records the
chosen issue but then crashes: a callback update's `update.message` is `None`,
so `update.message.reply_text` raises `AttributeError` — no prompt is sent and
the conversation stays at `ISSUE`, contradicting the documented transition to
`AWAIT_ADDRESS`. This evaluates the embedded handler at the failing input
(callback data `"swapping"` at the `ISSUE` stage). -/
theorem c4_button_callback_crashes :
    convHandle [] (some ConvState.ISSUE) none (Inbound.callback "swapping".data) =
      ⟨some ConvState.ISSUE, some "swapping".data, [], true⟩ := by decide

/-- C8: the `/cancel` command, from every conversation state, unconditionally
ends the conversation (`ConversationHandler.END`, here `none`) and sends the
closing acknowledgment, whatever prompt was pending and whatever issue is
stored. -/
theorem c8_cancel_from_any_state (fname : Str) (st : ConvState) (ud : Option Str) :
    convHandle fname (some st) ud (Inbound.commandMsg "cancel".data) =
      ⟨none, ud, [⟨closingMsg, none⟩], false⟩ := by
  simp [convHandle, cancel, applyOut]

/-- C9: at the `LANGUAGE` stage, a reply whose stripped, lowercased form is one
of the fixed English affirmations (`yes`, `y`, `en`, `english` — hence a
case-insensitive match) gets the continue-in-English reply; any other reply is
echoed back as the adopted language hint; in both cases the handler sends the
issue menu (`issues_keyboard`) and moves to `ISSUE`. -/
theorem c9_language_select (t : Str) :
    (lower (strip t) ∈ affirmations →
        language_received t = HandlerOut.ok (some ConvState.ISSUE)
          [⟨englishOkMsg, none⟩, ⟨chooseIssueMsg, some issues_keyboard⟩]) ∧
    (lower (strip t) ∉ affirmations →
        language_received t = HandlerOut.ok (some ConvState.ISSUE)
          [⟨langHintMsg (lower (strip t)), none⟩,
           ⟨chooseIssueMsg, some issues_keyboard⟩]) := by
  constructor
  · intro h; simp [language_received, h]
  · intro h; simp [language_received, h]

/-- C5: trigger scanning is a case-insensitive substring match against the
configured keyword list — the scan over the lowercased text returns exactly
the first keyword, in configured list order, that occurs as a substring; it
returns nothing exactly when no keyword occurs; on no match the handler has no
side effect at all; and never more than one DM attempt is made per message. -/
theorem c5_trigger_scan_first_match (ws : List Str) (dmOk : Nat → Bool) (t : Str)
    (u : GroupUser) (hu : u.is_bot = false) :
    (∀ w, scanTriggers ws (lower t) = some w →
        containsSub w (lower t) = true ∧
        ∃ pre post, ws = pre ++ w :: post ∧
          ∀ v ∈ pre, containsSub v (lower t) = false) ∧
    (scanTriggers ws (lower t) = none ↔
        ∀ w ∈ ws, containsSub w (lower t) = false) ∧
    (scanTriggers ws (lower t) = none →
        handle_group_message ws dmOk ⟨some t, some u⟩ = quietResult) ∧
    (handle_group_message ws dmOk ⟨some t, some u⟩).sends.length ≤ 1 := by
  refine ⟨fun w hw => scanTriggers_eq_some ws (lower t) w hw,
    scanTriggers_eq_none ws (lower t), ?_, ?_⟩
  · intro hnone
    simp [handle_group_message, isBotSender, hu, hnone]
  · rcases hscan : scanTriggers ws (lower t) with _ | w
    · simp [handle_group_message, isBotSender, hu, hscan, quietResult]
    · by_cases hdm : dmOk u.id = true
      · simp [handle_group_message, isBotSender, hu, hscan, hdm]
      · simp only [Bool.not_eq_true] at hdm
        simp [handle_group_message, isBotSender, hu, hscan, hdm]

/-- Witness for C5 at the spec's own example: the sender is human, and the
scan of "I need help with my WALLET" against the default keyword list is
characterized by the theorem's no-match criterion. -/
theorem c5_witness :
    ((⟨9, false, []⟩ : GroupUser).is_bot = false) ∧
    (scanTriggers TRIGGER_WORDS (lower "I need help with my WALLET".data) = none ↔
      ∀ w ∈ TRIGGER_WORDS,
        containsSub w (lower "I need help with my WALLET".data) = false) :=
  ⟨rfl, (c5_trigger_scan_first_match TRIGGER_WORDS (fun _ => true)
      "I need help with my WALLET".data ⟨9, false, []⟩ rfl).2.1⟩

/-- C6: at `ASK_ADDRESS`, a text failing address validation leaves the session
in `ASK_ADDRESS` with the stored issue untouched and sends the reprompt; a
whole run of invalid inputs, of any length (no attempt limit), still ends in
`ASK_ADDRESS`; and at every stage a non-command text is answered with at least
one reply and never aborts the handler — nothing is silently dropped. -/
theorem c6_invalid_address_reprompts (fname : Str) (ud : Option Str)
    (ts : List Str) (h : ∀ t ∈ ts, validAddress (strip t) = false) :
    convRunStates fname (some ConvState.ASK_ADDRESS) ud (ts.map Inbound.textMsg) =
      (some ConvState.ASK_ADDRESS, ud) ∧
    (∀ t, validAddress (strip t) = false →
        convHandle fname (some ConvState.ASK_ADDRESS) ud (Inbound.textMsg t) =
          ⟨some ConvState.ASK_ADDRESS, ud, [⟨invalidAddressMsg, none⟩], false⟩) ∧
    (∀ st : Option ConvState, ∀ t : Str,
        (convHandle fname st ud (Inbound.textMsg t)).replies ≠ [] ∧
        (convHandle fname st ud (Inbound.textMsg t)).errored = false) := by
  have step : ∀ t, validAddress (strip t) = false →
      convHandle fname (some ConvState.ASK_ADDRESS) ud (Inbound.textMsg t) =
        ⟨some ConvState.ASK_ADDRESS, ud, [⟨invalidAddressMsg, none⟩], false⟩ := by
    intro t ht
    simp [convHandle, address_received, applyOut, ht]
  have main : ∀ ts' : List Str, (∀ t ∈ ts', validAddress (strip t) = false) →
      convRunStates fname (some ConvState.ASK_ADDRESS) ud (ts'.map Inbound.textMsg) =
        (some ConvState.ASK_ADDRESS, ud) := by
    intro ts'
    induction ts' with
    | nil => intro _; rfl
    | cons t rest ih =>
      intro hall
      have ht := step t (hall t (List.mem_cons_self t rest))
      simp only [List.map_cons, convRunStates, ht]
      exact ih (fun x hx => hall x (List.mem_cons_of_mem t hx))
  refine ⟨main ts h, step, ?_⟩
  intro st t
  cases st with
  | none => simp [convHandle, support_start_dm, applyOut]
  | some s =>
    cases s with
    | LANGUAGE =>
      by_cases hl : lower (strip t) ∈ affirmations <;>
        simp [convHandle, language_received, applyOut, hl]
    | ISSUE =>
      by_cases hi : lower (strip t) = "swapping".data ∨
          lower (strip t) = "staking".data <;>
        simp [convHandle, issue_selected, applyOut, hi]
    | ASK_ADDRESS =>
      by_cases hv : validAddress (strip t) = true
      · simp [convHandle, address_received, applyOut, hv]
      · simp only [Bool.not_eq_true] at hv
        simp [convHandle, address_received, applyOut, hv]

/-- Witness for C6: the end-to-end scenario's invalid input "notanaddress",
repeated twice, keeps the session at `ASK_ADDRESS`. -/
theorem c6_witness :
    (∀ t ∈ ["notanaddress".data, "still not one".data],
        validAddress (strip t) = false) ∧
    convRunStates [] (some ConvState.ASK_ADDRESS) (some "staking".data)
        (["notanaddress".data, "still not one".data].map Inbound.textMsg) =
      (some ConvState.ASK_ADDRESS, some "staking".data) :=
  ⟨by decide, (c6_invalid_address_reprompts [] (some "staking".data)
      ["notanaddress".data, "still not one".data] (by decide)).1⟩

/-- C7: when a trigger matched and the private DM to the user is rejected by
the platform, the handler makes exactly one send attempt, delivers nothing,
logs the failure, and does not raise — the failure never escapes the handler
and the send is not retried. -/
theorem c7_dm_failure_logged_not_raised (ws : List Str) (t w : Str)
    (u : GroupUser) (hu : u.is_bot = false)
    (hscan : scanTriggers ws (lower t) = some w) :
    handle_group_message ws (fun _ => false) ⟨some t, some u⟩ =
      ⟨[(u.id, dmText u.first_name)], [], true, false⟩ := by
  simp [handle_group_message, isBotSender, hu, hscan]

/-- Witness for C7: a human sender, the message "my wallet broke" (matching
the default keyword "wallet"), and a platform that rejects every DM. -/
theorem c7_witness :
    ((⟨7, false, "Ann".data⟩ : GroupUser).is_bot = false) ∧
    scanTriggers TRIGGER_WORDS (lower "my wallet broke".data) =
      some "wallet".data ∧
    handle_group_message TRIGGER_WORDS (fun _ => false)
        ⟨some "my wallet broke".data, some ⟨7, false, "Ann".data⟩⟩ =
      ⟨[(7, dmText "Ann".data)], [], true, false⟩ :=
  ⟨rfl, by decide,
    c7_dm_failure_logged_not_raised TRIGGER_WORDS "my wallet broke".data
      "wallet".data ⟨7, false, "Ann".data⟩ rfl (by decide)⟩

/-- C10: a typed non-command text at the `ISSUE` stage whose stripped,
lowercased form is neither "swapping" nor "staking" is recorded verbatim (in
that lowercased form) as the session's issue, answered with the generic
troubleshooting reply (which carries the resource link), and the conversation
ends; moreover no typed text at this stage is ever rejected or reprompted —
the state after any typed text is never `ISSUE` again and the handler never
errors. -/
theorem c10_issue_free_text (fname : Str) (ud : Option Str) (t : Str)
    (h1 : lower (strip t) ≠ "swapping".data)
    (h2 : lower (strip t) ≠ "staking".data) :
    convHandle fname (some ConvState.ISSUE) ud (Inbound.textMsg t) =
      ⟨none, some (lower (strip t)),
       [⟨troubleshootMsg (lower (strip t)), none⟩], false⟩ ∧
    (∀ s : Str,
        (convHandle fname (some ConvState.ISSUE) ud (Inbound.textMsg s)).state ≠
          some ConvState.ISSUE ∧
        (convHandle fname (some ConvState.ISSUE) ud (Inbound.textMsg s)).errored =
          false) := by
  constructor
  · simp [convHandle, issue_selected, applyOut, h1, h2]
  · intro s
    by_cases hs : lower (strip s) = "swapping".data ∨
        lower (strip s) = "staking".data <;>
      simp [convHandle, issue_selected, applyOut, hs]

/-- Witness for C10: the typed text "Site malfunction" (matching a menu label
but neither swapping nor staking) is recorded lowercased and ends the
conversation with the generic troubleshooting reply. -/
theorem c10_witness :
    (lower (strip "Site malfunction".data) ≠ "swapping".data) ∧
    (lower (strip "Site malfunction".data) ≠ "staking".data) ∧
    convHandle [] (some ConvState.ISSUE) none
        (Inbound.textMsg "Site malfunction".data) =
      ⟨none, some (lower (strip "Site malfunction".data)),
       [⟨troubleshootMsg (lower (strip "Site malfunction".data)), none⟩],
       false⟩ :=
  ⟨by decide, by decide,
    (c10_issue_free_text [] none "Site malfunction".data (by decide)
      (by decide)).1⟩

/-- C1 (modelled from the spec, whose RelayBridge/Dispatcher code is not under
`src/`): while a session has `manualMode = true`, and as long as no
`deactivate` event arrives, the Dispatcher routes no inbound message of that
user to the ConversationEngine, the conversation stage and stored issue never
change, and manual mode stays on. -/
theorem c1_manual_mode_blocks_engine (fname : Str) (s : DispSession)
    (es : List UserEvent) (hm : s.manualMode = true)
    (hd : UserEvent.deactivate ∉ es) :
    (dispatchRun fname s es).1.stage = s.stage ∧
    (dispatchRun fname s es).1.issue = s.issue ∧
    (dispatchRun fname s es).1.manualMode = true ∧
    DispatchTarget.convEngine ∉ (dispatchRun fname s es).2 := by
  induction es generalizing s with
  | nil => exact ⟨rfl, rfl, hm, by simp [dispatchRun]⟩
  | cons e es ih =>
    have hd2 : UserEvent.deactivate ∉ es :=
      fun hx => hd (List.mem_cons_of_mem _ hx)
    cases e with
    | deactivate => exact absurd (List.mem_cons_self _ _) hd
    | activate =>
      have h' := ih { s with manualMode := true } rfl hd2
      simp only [dispatchRun, dispatchStep, Option.toList_none, List.nil_append]
      exact ⟨h'.1, h'.2.1, h'.2.2.1, h'.2.2.2⟩
    | msg e0 =>
      have h' := ih s hm hd2
      simp only [dispatchRun, dispatchStep, hm, if_true, Option.toList_some,
        List.singleton_append]
      refine ⟨h'.1, h'.2.1, h'.2.2.1, ?_⟩
      intro hmem
      rcases List.mem_cons.mp hmem with hc | hc
      · cases hc
      · exact h'.2.2.2 hc

/-- Witness for C1: a session in manual mode at stage `LANGUAGE` receives a
text message and a button callback (no deactivate); its stage is unchanged and
the ConversationEngine is never consulted. -/
theorem c1_witness :
    ((⟨some ConvState.LANGUAGE, none, true⟩ : DispSession).manualMode = true) ∧
    (UserEvent.deactivate ∉
      [UserEvent.msg (Inbound.textMsg "hello".data),
       UserEvent.msg (Inbound.callback "swapping".data)]) ∧
    (dispatchRun [] ⟨some ConvState.LANGUAGE, none, true⟩
        [UserEvent.msg (Inbound.textMsg "hello".data),
         UserEvent.msg (Inbound.callback "swapping".data)]).1.stage =
      some ConvState.LANGUAGE ∧
    DispatchTarget.convEngine ∉
      (dispatchRun [] ⟨some ConvState.LANGUAGE, none, true⟩
        [UserEvent.msg (Inbound.textMsg "hello".data),
         UserEvent.msg (Inbound.callback "swapping".data)]).2 :=
  ⟨rfl, by decide,
    (c1_manual_mode_blocks_engine [] ⟨some ConvState.LANGUAGE, none, true⟩
      [UserEvent.msg (Inbound.textMsg "hello".data),
       UserEvent.msg (Inbound.callback "swapping".data)] rfl (by decide)).1,
    (c1_manual_mode_blocks_engine [] ⟨some ConvState.LANGUAGE, none, true⟩
      [UserEvent.msg (Inbound.textMsg "hello".data),
       UserEvent.msg (Inbound.callback "swapping".data)] rfl (by decide)).2.2.2⟩

end PancakeBot
